import Mathlib

/-!
Shallow embedding of the SIS epidemic simulation repository (CSN lab 7).

The repository holds two variants of the simulation, `main.py` and
`main_task1.py`.  Both are embedded below, in the namespaces `Main` and
`MainTask1`.  Python's global `random.random()` stream is modelled as a
function `rs : Nat → ℚ` together with an explicit draw index `k` that is
threaded through every function exactly in the order the Python code
consumes draws; a draw is taken (and the index advanced) precisely where
the Python code calls `random.random()`.  Python floats are modelled as
rationals.  A networkx graph is modelled by its node list and its
neighbor-list function.
-/

/-- A graph as the simulation code uses it: `G.nodes()` is a list of node
identifiers and `G.neighbors(n)` is the neighbor list of `n`.  `len(G)` in
Python is `nodes.length`. -/
structure Graph where
  nodes : List Nat
  neighbors : Nat → List Nat

namespace Main

/-- Inner neighbor loop of `update_status` in `main.py` (lines 62-65): for
each neighbor of a non-recovered infected node, if the neighbor is not in
`infected_nodes`, one draw is taken and the neighbor is appended when the
draw is below `beta`.  Returns the appended nodes and the next draw index.
Python short-circuits `neighbor not in infected_nodes and random.random() < beta`,
so no draw is taken for an infected neighbor. -/
def transmitLoop (infected : List Nat) (beta : ℚ) (rs : Nat → ℚ) :
    List Nat → Nat → List Nat × Nat
  | [], k => ([], k)
  | nb :: rest, k =>
    if nb ∈ infected then transmitLoop infected beta rs rest k
    else if rs k < beta then
      let r := transmitLoop infected beta rs rest (k + 1)
      (nb :: r.1, r.2)
    else transmitLoop infected beta rs rest (k + 1)

/-- Main loop of `update_status` in `main.py` (lines 55-70) over `G.nodes()`.
An infected node takes one recovery draw; if it recovers (`draw < gamma`)
the loop continues, otherwise its susceptible neighbors are subjected to
transmission draws (the node itself is not appended).  A node not in
`infected_nodes` takes one draw and is appended when the draw is below
`beta` (spontaneous infection branch, lines 69-70). -/
def updateLoop (G : Graph) (infected : List Nat) (beta gamma : ℚ) (rs : Nat → ℚ) :
    List Nat → Nat → List Nat × Nat
  | [], k => ([], k)
  | node :: rest, k =>
    if node ∈ infected then
      if rs k < gamma then updateLoop G infected beta gamma rs rest (k + 1)
      else
        let t := transmitLoop infected beta rs (G.neighbors node) (k + 1)
        let r := updateLoop G infected beta gamma rs rest t.2
        (t.1 ++ r.1, r.2)
    else if rs k < beta then
      let r := updateLoop G infected beta gamma rs rest (k + 1)
      (node :: r.1, r.2)
    else updateLoop G infected beta gamma rs rest (k + 1)

/-- The `update_status` of `main.py` (lines 29-73): returns the new infected
list and the proportion `len(new_infected_nodes) / len(G)`, plus the next
draw index.  (On an empty graph Python would raise `ZeroDivisionError`; in
ℚ the division yields 0, and no statement below touches that case.) -/
def update_status (G : Graph) (infected : List Nat) (beta gamma : ℚ)
    (rs : Nat → ℚ) (k : Nat) : (List Nat × ℚ) × Nat :=
  let r := updateLoop G infected beta gamma rs G.nodes k
  ((r.1, (r.1.length : ℚ) / (G.nodes.length : ℚ)), r.2)

/-- Trajectory loop of `simulate_spread` in `main.py` (lines 105-108):
threads the infected list through `update_status` for `T` steps, appending
each step's proportion.  The eigenvector-centrality part of the Python
function calls the external networkx library and is outside the embedding;
the final threaded state and draw index are returned so the loop's state
can be inspected. -/
def simulate_spread (G : Graph) (beta gamma : ℚ) (rs : Nat → ℚ) :
    List Nat → Nat → Nat → List ℚ × (List Nat × Nat)
  | infected, k, 0 => ([], (infected, k))
  | infected, k, T + 1 =>
    let r := update_status G infected beta gamma rs k
    let rest := simulate_spread G beta gamma rs r.1.1 r.2 T
    (r.1.2 :: rest.1, rest.2)

/-- The `check_threshold` of `main.py` (lines 131-162): computes
`beta_over_gamma = beta / gamma` and `threshold = 1 / max_eigen` and reports
whether `beta_over_gamma > threshold` (`true` = the "Epidemic occurs"
branch).  Python raises `ZeroDivisionError` when a divisor is zero, modelled
with `Except`. -/
def check_threshold (beta gamma max_eigen : ℚ) : Except String Bool :=
  if gamma = 0 then Except.error "ZeroDivisionError"
  else
    let beta_over_gamma := beta / gamma
    if max_eigen = 0 then Except.error "ZeroDivisionError"
    else
      let threshold := 1 / max_eigen
      Except.ok (decide (threshold < beta_over_gamma))

end Main

namespace MainTask1

/-- Inner neighbor loop of the susceptible branch of `update_status` in
`main_task1.py` (lines 64-68): scans the node's neighbors in order; for an
infected neighbor one draw is taken, and on a draw below `beta` the scan
stops (`break`) reporting success.  Returns whether the node gets infected
and the next draw index.  Python short-circuits
`neighbor in infected_nodes and random.random() < beta`, so no draw is
taken for a non-infected neighbor. -/
def susLoop (infected : List Nat) (beta : ℚ) (rs : Nat → ℚ) :
    List Nat → Nat → Bool × Nat
  | [], k => (false, k)
  | nb :: rest, k =>
    if nb ∈ infected then
      if rs k < beta then (true, k + 1)
      else susLoop infected beta rs rest (k + 1)
    else susLoop infected beta rs rest k

/-- Main loop of `update_status` in `main_task1.py` (lines 55-68) over
`G.nodes()`.  An infected node takes one draw and stays infected when the
draw is above `gamma` (line 59: `random.random() > gamma`).  A node not in
`infected_nodes` (the `elif` guard of line 62, redundant but kept) is
appended when its neighbor scan succeeds. -/
def updateLoop (G : Graph) (infected : List Nat) (beta gamma : ℚ) (rs : Nat → ℚ) :
    List Nat → Nat → List Nat × Nat
  | [], k => ([], k)
  | node :: rest, k =>
    if node ∈ infected then
      if gamma < rs k then
        let r := updateLoop G infected beta gamma rs rest (k + 1)
        (node :: r.1, r.2)
      else updateLoop G infected beta gamma rs rest (k + 1)
    else if node ∉ infected then
      let s := susLoop infected beta rs (G.neighbors node) k
      if s.1 then
        let r := updateLoop G infected beta gamma rs rest s.2
        (node :: r.1, r.2)
      else updateLoop G infected beta gamma rs rest s.2
    else updateLoop G infected beta gamma rs rest k

/-- The `update_status` of `main_task1.py` (lines 29-77): returns the new
infected list and the proportion `len(new_infected_nodes) / len(G)`, plus
the next draw index.  The `print` on line 76 is a console side effect with
no bearing on the returned value. -/
def update_status (G : Graph) (infected : List Nat) (beta gamma : ℚ)
    (rs : Nat → ℚ) (k : Nat) : (List Nat × ℚ) × Nat :=
  let r := updateLoop G infected beta gamma rs G.nodes k
  ((r.1, (r.1.length : ℚ) / (G.nodes.length : ℚ)), r.2)

/-- Trajectory loop of `simulate_spread` in `main_task1.py` (lines 108-111),
modelled exactly as `Main.simulate_spread`; plotting and the networkx
eigenvector-centrality call are external side effects outside the
embedding. -/
def simulate_spread (G : Graph) (beta gamma : ℚ) (rs : Nat → ℚ) :
    List Nat → Nat → Nat → List ℚ × (List Nat × Nat)
  | infected, k, 0 => ([], (infected, k))
  | infected, k, T + 1 =>
    let r := update_status G infected beta gamma rs k
    let rest := simulate_spread G beta gamma rs r.1.1 r.2 T
    (r.1.2 :: rest.1, rest.2)

/-- The `check_threshold` of `main_task1.py` (lines 131-158): computes
`beta_over_gamma = beta / gamma` and `threshold = 1 / max_eigen`, but then
compares `beta_over_gamma > 1 / threshold` (line 155), i.e. against
`max_eigen` itself rather than against the threshold it just computed.
`true` is the "Epidemic occurs" branch.  Each Python division that could
raise `ZeroDivisionError` is guarded with `Except`. -/
def check_threshold (beta gamma max_eigen : ℚ) : Except String Bool :=
  if gamma = 0 then Except.error "ZeroDivisionError"
  else
    let beta_over_gamma := beta / gamma
    if max_eigen = 0 then Except.error "ZeroDivisionError"
    else
      let threshold := 1 / max_eigen
      if threshold = 0 then Except.error "ZeroDivisionError"
      else Except.ok (decide (1 / threshold < beta_over_gamma))

end MainTask1

/-- Loop of `set_initial_infected` (lines 23-27, identical in `main.py` and
`main_task1.py`): one draw per node, the node is appended when the draw is
below `p0`. -/
def initLoop (p0 : ℚ) (rs : Nat → ℚ) : List Nat → Nat → List Nat × Nat
  | [], k => ([], k)
  | node :: rest, k =>
    if rs k < p0 then
      let r := initLoop p0 rs rest (k + 1)
      (node :: r.1, r.2)
    else initLoop p0 rs rest (k + 1)

/-- The `set_initial_infected` of both files (lines 6-27): each node of the
graph is included independently when its draw is below `p0`. -/
def set_initial_infected (G : Graph) (p0 : ℚ) (rs : Nat → ℚ) (k : Nat) :
    List Nat × Nat :=
  initLoop p0 rs G.nodes k

/-- Graph with the single node `0` and no edges. -/
def G1 : Graph := ⟨[0], fun _ => []⟩

/-- Path graph on the two nodes `0 - 1`. -/
def Gpath : Graph :=
  ⟨[0, 1], fun n => if n = 0 then [1] else if n = 1 then [0] else []⟩

/-- Complete graph on the three nodes `0, 1, 2`. -/
def K3 : Graph :=
  ⟨[0, 1, 2], fun n =>
    if n = 0 then [1, 2] else if n = 1 then [0, 2]
    else if n = 2 then [0, 1] else []⟩

/-- Random source every draw of which is `1/2` (a legal value of Python's
`random.random()`, which ranges over `[0, 1)`). -/
def rsHalf : Nat → ℚ := fun _ => 1/2

/-- C1: evaluation of `main.py`'s `update_status` on the one-node graph with
node `0` infected and `gamma = 0`.  The recovery trial fails (`1/2 < 0` is
false), so by the claim node `0` should remain infected, but the returned
state is empty: `main.py` never re-appends a non-recovered infected node. -/
theorem c1_main_drops_nonrecovered_infected :
    ¬ (rsHalf 0 < 0) ∧ (Main.update_status G1 [0] (1/2) 0 rsHalf 0).1.1 = [] := by
  constructor
  · norm_num [rsHalf]
  · norm_num [Main.update_status, Main.updateLoop, Main.transmitLoop, G1, rsHalf]

/-- C3: at `beta = 1`, `gamma = 1`, `max_eigen = 2` we have
`beta/gamma = 1 > 1/2 = 1/max_eigen`, so the claim requires "epidemic
occurs"; `main.py`'s `check_threshold` indeed reports epidemic, but
`main_task1.py`'s reports no epidemic, because line 155 compares
`beta_over_gamma > 1/threshold`, i.e. against `max_eigen` instead of the
threshold `1/max_eigen` it computed. -/
theorem c3_task1_threshold_comparison_inverted :
    (1:ℚ)/1 > 1/2 ∧ MainTask1.check_threshold 1 1 2 = Except.ok false ∧
      Main.check_threshold 1 1 2 = Except.ok true := by
  refine ⟨by norm_num, ?_, ?_⟩
  · norm_num [MainTask1.check_threshold]
  · norm_num [Main.check_threshold]

/-- C4: on the complete graph `K3` with only node `0` infected, `beta = 1`,
`gamma = 0` and all draws `1/2`, one step of `main.py`'s `simulate_spread`
records the infected fraction `4/3 > 1`: node `1` and node `2` are each
appended twice (once by transmission from `0`, once by the spontaneous
branch), so the trajectory entry escapes `[0, 1]`. -/
theorem c4_main_trajectory_entry_exceeds_one :
    (Main.simulate_spread K3 1 0 rsHalf [0] 0 1).1 = [4/3] ∧ (1:ℚ) < 4/3 := by
  constructor
  · norm_num [Main.simulate_spread, Main.update_status, Main.updateLoop,
      Main.transmitLoop, K3, rsHalf]
  · norm_num

/-- C5: on the complete graph `K3` with only node `0` infected, `beta = 1`,
`gamma = 0` and all draws `1/2`, `main.py`'s `update_status` returns
`[1, 2, 1, 2]`: nodes `1` and `2` each occur twice, and the output is
longer than the node list of the graph. -/
theorem c5_main_output_has_duplicates :
    (Main.update_status K3 [0] 1 0 rsHalf 0).1.1 = [1, 2, 1, 2] ∧
      ¬ (Main.update_status K3 [0] 1 0 rsHalf 0).1.1.Nodup ∧
      K3.nodes.length < (Main.update_status K3 [0] 1 0 rsHalf 0).1.1.length := by
  have h : (Main.update_status K3 [0] 1 0 rsHalf 0).1.1 = [1, 2, 1, 2] := by
    norm_num [Main.update_status, Main.updateLoop, Main.transmitLoop, K3, rsHalf]
  refine ⟨h, ?_, ?_⟩
  · rw [h]; decide
  · rw [h]; decide

/-- C7: the repository performs no parameter validation anywhere; there is
no InvalidParameter rejection at configuration time.  A run with
`gamma = 0` proceeds until `check_threshold` divides `beta` by `gamma`,
where Python raises `ZeroDivisionError` — modelled here by the error value
returned by the embedded `check_threshold` at `beta = 1`, `gamma = 0`,
`max_eigen = 9`. -/
theorem c7_gamma_zero_reaches_division_error :
    Main.check_threshold 1 0 9 = Except.error "ZeroDivisionError" := by
  norm_num [Main.check_threshold]

/-- C9: the two `update_status` variants differ.  On the one-node edgeless
graph with nothing infected, `beta = 1` and draw `1/2`, `main.py`'s variant
infects node `0` spontaneously while `main_task1.py`'s variant, which
requires an infected neighbor, returns the empty state. -/
theorem c9_variants_not_equivalent :
    (Main.update_status G1 [] 1 (1/2) rsHalf 0).1.1 = [0] ∧
      (MainTask1.update_status G1 [] 1 (1/2) rsHalf 0).1.1 = [] ∧
      (Main.update_status G1 [] 1 (1/2) rsHalf 0).1.1 ≠
        (MainTask1.update_status G1 [] 1 (1/2) rsHalf 0).1.1 := by
  have h1 : (Main.update_status G1 [] 1 (1/2) rsHalf 0).1.1 = [0] := by
    norm_num [Main.update_status, Main.updateLoop, Main.transmitLoop, G1, rsHalf]
  have h2 : (MainTask1.update_status G1 [] 1 (1/2) rsHalf 0).1.1 = [] := by
    norm_num [MainTask1.update_status, MainTask1.updateLoop, MainTask1.susLoop,
      G1, rsHalf]
  exact ⟨h1, h2, by rw [h1, h2]; decide⟩

/-- C2 counterexample: in `main.py`'s `update_status`, the susceptible node
`0` of the edgeless one-node graph — which has no neighbors at all, hence
no infected neighbor and no transmission trial — is nevertheless in the
new infection state when `beta = 1`, through the spontaneous-infection
branch of lines 69-70.  This refutes the claim for `main.py`'s variant. -/
theorem c2_counterexample_no_infected_neighbor :
    (0 ∉ ([] : List Nat)) ∧ G1.neighbors 0 = [] ∧
      0 ∈ (Main.update_status G1 [] 1 (1/2) rsHalf 0).1.1 := by
  refine ⟨by decide, by decide, ?_⟩
  have h1 : (Main.update_status G1 [] 1 (1/2) rsHalf 0).1.1 = [0] := by
    norm_num [Main.update_status, Main.updateLoop, Main.transmitLoop, G1, rsHalf]
  rw [h1]; decide

theorem initLoop_zero_eq_nil (rs : Nat → ℚ) (h : ∀ i, 0 ≤ rs i) :
    ∀ (ns : List Nat) (k : Nat), (initLoop 0 rs ns k).1 = [] := by
  intro ns
  induction ns with
  | nil => intro k; simp [initLoop]
  | cons node rest ih =>
    intro k
    simp only [initLoop]
    rw [if_neg (not_lt.mpr (h k))]
    exact ih (k + 1)

theorem initLoop_one_eq_all (rs : Nat → ℚ) (h : ∀ i, rs i < 1) :
    ∀ (ns : List Nat) (k : Nat), (initLoop 1 rs ns k).1 = ns := by
  intro ns
  induction ns with
  | nil => intro k; simp [initLoop]
  | cons node rest ih =>
    intro k
    simp only [initLoop]
    rw [if_pos (h k)]
    simp only []
    rw [ih (k + 1)]

/-- C8: when every draw lies in `[0, 1)` (as Python's `random.random()`
guarantees), `set_initial_infected` with `p0 = 0` returns the empty
infection state and with `p0 = 1` returns exactly the graph's node list. -/
theorem c8_set_initial_infected_extremes (G : Graph) (rs : Nat → ℚ) (k : Nat)
    (h : ∀ i, 0 ≤ rs i ∧ rs i < 1) :
    (set_initial_infected G 0 rs k).1 = [] ∧
      (set_initial_infected G 1 rs k).1 = G.nodes :=
  ⟨initLoop_zero_eq_nil rs (fun i => (h i).1) G.nodes k,
   initLoop_one_eq_all rs (fun i => (h i).2) G.nodes k⟩

theorem c8_witness :
    (set_initial_infected Gpath 0 rsHalf 0).1 = [] ∧
      (set_initial_infected Gpath 1 rsHalf 0).1 = Gpath.nodes :=
  c8_set_initial_infected_extremes Gpath rsHalf 0
    (fun i => ⟨by norm_num [rsHalf], by norm_num [rsHalf]⟩)

theorem transmitLoop_beta_zero (infected : List Nat) (rs : Nat → ℚ)
    (h : ∀ i, 0 ≤ rs i) :
    ∀ (nbrs : List Nat) (k : Nat),
      (Main.transmitLoop infected 0 rs nbrs k).1 = [] := by
  intro nbrs
  induction nbrs with
  | nil => intro k; simp [Main.transmitLoop]
  | cons nb rest ih =>
    intro k
    simp only [Main.transmitLoop]
    by_cases hm : nb ∈ infected
    · rw [if_pos hm]; exact ih k
    · rw [if_neg hm, if_neg (not_lt.mpr (h k))]
      exact ih (k + 1)

theorem updateLoop_main_beta_zero (G : Graph) (infected : List Nat)
    (gamma : ℚ) (rs : Nat → ℚ) (h : ∀ i, 0 ≤ rs i) :
    ∀ (ns : List Nat) (k : Nat),
      (Main.updateLoop G infected 0 gamma rs ns k).1 = [] := by
  intro ns
  induction ns with
  | nil => intro k; simp [Main.updateLoop]
  | cons node rest ih =>
    intro k
    simp only [Main.updateLoop]
    by_cases hm : node ∈ infected
    · rw [if_pos hm]
      by_cases hr : rs k < gamma
      · rw [if_pos hr]; exact ih (k + 1)
      · rw [if_neg hr]
        simp only [transmitLoop_beta_zero infected rs h, List.nil_append]
        exact ih _
    · rw [if_neg hm, if_neg (not_lt.mpr (h k))]
      exact ih (k + 1)

theorem susLoop_beta_zero (infected : List Nat) (rs : Nat → ℚ)
    (h : ∀ i, 0 ≤ rs i) :
    ∀ (nbrs : List Nat) (k : Nat),
      (MainTask1.susLoop infected 0 rs nbrs k).1 = false := by
  intro nbrs
  induction nbrs with
  | nil => intro k; simp [MainTask1.susLoop]
  | cons nb rest ih =>
    intro k
    simp only [MainTask1.susLoop]
    by_cases hm : nb ∈ infected
    · rw [if_pos hm, if_neg (not_lt.mpr (h k))]
      exact ih (k + 1)
    · rw [if_neg hm]
      exact ih k

theorem updateLoop_t1_beta_zero_subset (G : Graph) (infected : List Nat)
    (gamma : ℚ) (rs : Nat → ℚ) (h : ∀ i, 0 ≤ rs i) :
    ∀ (ns : List Nat) (k : Nat) (x : Nat),
      x ∈ (MainTask1.updateLoop G infected 0 gamma rs ns k).1 → x ∈ infected := by
  intro ns
  induction ns with
  | nil => intro k x hx; simp [MainTask1.updateLoop] at hx
  | cons node rest ih =>
    intro k x hx
    simp only [MainTask1.updateLoop] at hx
    by_cases hm : node ∈ infected
    · rw [if_pos hm] at hx
      by_cases hr : gamma < rs k
      · rw [if_pos hr] at hx
        rcases List.mem_cons.mp hx with h1 | h2
        · rw [h1]; exact hm
        · exact ih (k + 1) x h2
      · rw [if_neg hr] at hx
        exact ih (k + 1) x hx
    · rw [if_neg hm, if_pos hm] at hx
      simp only [susLoop_beta_zero infected rs h] at hx
      rw [if_neg (by simp)] at hx
      exact ih _ x hx

/-- C10: with `beta = 0` and every draw non-negative (as Python's
`random.random()` guarantees), both `update_status` variants return an
infection state containing only nodes that were already infected: no
susceptible node ever becomes infected without transmission. -/
theorem c10_beta_zero_no_new_infections (G : Graph) (infected : List Nat)
    (gamma : ℚ) (rs : Nat → ℚ) (k : Nat) (h : ∀ i, 0 ≤ rs i) :
    (∀ x ∈ (Main.update_status G infected 0 gamma rs k).1.1, x ∈ infected) ∧
      (∀ x ∈ (MainTask1.update_status G infected 0 gamma rs k).1.1,
        x ∈ infected) := by
  constructor
  · intro x hx
    simp only [Main.update_status] at hx
    rw [updateLoop_main_beta_zero G infected gamma rs h G.nodes k] at hx
    cases hx
  · intro x hx
    simp only [MainTask1.update_status] at hx
    exact updateLoop_t1_beta_zero_subset G infected gamma rs h G.nodes k x hx

theorem c10_witness :
    (∀ x ∈ (Main.update_status Gpath [0] 0 (1/2) rsHalf 0).1.1,
      x ∈ ([0] : List Nat)) ∧
      (∀ x ∈ (MainTask1.update_status Gpath [0] 0 (1/2) rsHalf 0).1.1,
        x ∈ ([0] : List Nat)) :=
  c10_beta_zero_no_new_infections Gpath [0] (1/2) rsHalf 0
    (fun i => by norm_num [rsHalf])

theorem susLoop_infected_nil (beta : ℚ) (rs : Nat → ℚ) :
    ∀ (nbrs : List Nat) (k : Nat),
      MainTask1.susLoop [] beta rs nbrs k = (false, k) := by
  intro nbrs
  induction nbrs with
  | nil => intro k; simp [MainTask1.susLoop]
  | cons nb rest ih =>
    intro k
    simp only [MainTask1.susLoop]
    rw [if_neg (List.not_mem_nil nb)]
    exact ih k

theorem updateLoop_t1_infected_nil (G : Graph) (beta gamma : ℚ)
    (rs : Nat → ℚ) :
    ∀ (ns : List Nat) (k : Nat),
      MainTask1.updateLoop G [] beta gamma rs ns k = ([], k) := by
  intro ns
  induction ns with
  | nil => intro k; simp [MainTask1.updateLoop]
  | cons node rest ih =>
    intro k
    simp only [MainTask1.updateLoop]
    rw [if_neg (List.not_mem_nil node), if_pos (List.not_mem_nil node)]
    simp only [susLoop_infected_nil beta rs]
    rw [if_neg (by simp)]
    exact ih k

theorem update_status_t1_infected_nil (G : Graph) (beta gamma : ℚ)
    (rs : Nat → ℚ) (k : Nat) :
    MainTask1.update_status G [] beta gamma rs k = (([], 0), k) := by
  simp only [MainTask1.update_status, updateLoop_t1_infected_nil G beta gamma rs]
  norm_num

theorem simulate_t1_infected_nil (G : Graph) (beta gamma : ℚ)
    (rs : Nat → ℚ) :
    ∀ (T k : Nat),
      MainTask1.simulate_spread G beta gamma rs [] k T =
        (List.replicate T 0, ([], k)) := by
  intro T
  induction T with
  | zero => intro k; simp [MainTask1.simulate_spread]
  | succ T ih =>
    intro k
    simp only [MainTask1.simulate_spread, update_status_t1_infected_nil, ih]
    simp [List.replicate_succ]

/-- C6: for `main_task1.py`'s transition engine (transmission requires an
infected neighbor), the empty infection state is absorbing: `update_status`
on the empty state returns the empty state, and the state threaded by
`simulate_spread` stays empty for every number of steps. -/
theorem c6_empty_state_absorbing (G : Graph) (beta gamma : ℚ)
    (rs : Nat → ℚ) (k : Nat) (hg : 0 < gamma) :
    (MainTask1.update_status G [] beta gamma rs k).1.1 = [] ∧
      ∀ T, (MainTask1.simulate_spread G beta gamma rs [] k T).2.1 = [] := by
  constructor
  · rw [update_status_t1_infected_nil G beta gamma rs k]
  · intro T
    rw [simulate_t1_infected_nil G beta gamma rs T k]

theorem c6_witness :
    (MainTask1.update_status Gpath [] 1 (1/2) rsHalf 0).1.1 = [] ∧
      (MainTask1.simulate_spread Gpath 1 (1/2) rsHalf [] 0 3).2.1 = [] :=
  ⟨(c6_empty_state_absorbing Gpath 1 (1/2) rsHalf 0 (by norm_num)).1,
   (c6_empty_state_absorbing Gpath 1 (1/2) rsHalf 0 (by norm_num)).2 3⟩

theorem susLoop_true_iff (infected : List Nat) (beta : ℚ) (rs : Nat → ℚ) :
    ∀ (nbrs : List Nat) (k : Nat),
      (MainTask1.susLoop infected beta rs nbrs k).1 = true ↔
        ∃ j, j < nbrs.countP (fun m => decide (m ∈ infected)) ∧
          rs (k + j) < beta := by
  intro nbrs
  induction nbrs with
  | nil =>
    intro k
    simp [MainTask1.susLoop]
  | cons nb rest ih =>
    intro k
    rw [List.countP_cons]
    by_cases hm : nb ∈ infected
    · have hc : (if (fun m => decide (m ∈ infected)) nb = true then 1 else 0) = 1 := by
        simp [hm]
      rw [hc]
      simp only [MainTask1.susLoop]
      rw [if_pos hm]
      by_cases hb : rs k < beta
      · rw [if_pos hb]
        constructor
        · intro _
          exact ⟨0, by omega, by simpa using hb⟩
        · intro _
          rfl
      · rw [if_neg hb]
        rw [ih (k + 1)]
        constructor
        · rintro ⟨j, hj, hlt⟩
          refine ⟨j + 1, by omega, ?_⟩
          have he : k + (j + 1) = k + 1 + j := by omega
          rw [he]
          exact hlt
        · rintro ⟨j, hj, hlt⟩
          cases j with
          | zero => exact absurd (by simpa using hlt) hb
          | succ j =>
            refine ⟨j, by omega, ?_⟩
            have he : k + 1 + j = k + (j + 1) := by omega
            rw [he]
            exact hlt
    · have hc : (if (fun m => decide (m ∈ infected)) nb = true then 1 else 0) = 0 := by
        simp [hm]
      rw [hc]
      simp only [MainTask1.susLoop]
      rw [if_neg hm]
      rw [ih k]
      simp

theorem updateLoop_t1_subset (G : Graph) (infected : List Nat)
    (beta gamma : ℚ) (rs : Nat → ℚ) :
    ∀ (ns : List Nat) (k : Nat) (x : Nat),
      x ∈ (MainTask1.updateLoop G infected beta gamma rs ns k).1 → x ∈ ns := by
  intro ns
  induction ns with
  | nil => intro k x hx; simp [MainTask1.updateLoop] at hx
  | cons node rest ih =>
    intro k x hx
    simp only [MainTask1.updateLoop] at hx
    by_cases hm : node ∈ infected
    · rw [if_pos hm] at hx
      by_cases hr : gamma < rs k
      · rw [if_pos hr] at hx
        rcases List.mem_cons.mp hx with h1 | h2
        · exact h1 ▸ List.mem_cons_self node rest
        · exact List.mem_cons_of_mem node (ih _ x h2)
      · rw [if_neg hr] at hx
        exact List.mem_cons_of_mem node (ih _ x hx)
    · rw [if_neg hm, if_pos hm] at hx
      by_cases hs :
          (MainTask1.susLoop infected beta rs (G.neighbors node) k).1 = true
      · rw [if_pos hs] at hx
        rcases List.mem_cons.mp hx with h1 | h2
        · exact h1 ▸ List.mem_cons_self node rest
        · exact List.mem_cons_of_mem node (ih _ x h2)
      · rw [if_neg hs] at hx
        exact List.mem_cons_of_mem node (ih _ x hx)

theorem updateLoop_t1_cons (G : Graph) (infected : List Nat)
    (beta gamma : ℚ) (rs : Nat → ℚ) (node : Nat) (rest : List Nat) (k : Nat) :
    MainTask1.updateLoop G infected beta gamma rs (node :: rest) k =
      if node ∈ infected then
        if gamma < rs k then
          (node :: (MainTask1.updateLoop G infected beta gamma rs rest (k + 1)).1,
            (MainTask1.updateLoop G infected beta gamma rs rest (k + 1)).2)
        else MainTask1.updateLoop G infected beta gamma rs rest (k + 1)
      else if node ∉ infected then
        if (MainTask1.susLoop infected beta rs (G.neighbors node) k).1 = true then
          (node :: (MainTask1.updateLoop G infected beta gamma rs rest
              (MainTask1.susLoop infected beta rs (G.neighbors node) k).2).1,
            (MainTask1.updateLoop G infected beta gamma rs rest
              (MainTask1.susLoop infected beta rs (G.neighbors node) k).2).2)
        else MainTask1.updateLoop G infected beta gamma rs rest
          (MainTask1.susLoop infected beta rs (G.neighbors node) k).2
      else MainTask1.updateLoop G infected beta gamma rs rest k := rfl

theorem updateLoop_t1_append (G : Graph) (infected : List Nat)
    (beta gamma : ℚ) (rs : Nat → ℚ) :
    ∀ (l1 l2 : List Nat) (k : Nat),
      MainTask1.updateLoop G infected beta gamma rs (l1 ++ l2) k =
        ((MainTask1.updateLoop G infected beta gamma rs l1 k).1 ++
          (MainTask1.updateLoop G infected beta gamma rs l2
            (MainTask1.updateLoop G infected beta gamma rs l1 k).2).1,
         (MainTask1.updateLoop G infected beta gamma rs l2
            (MainTask1.updateLoop G infected beta gamma rs l1 k).2).2) := by
  intro l1
  induction l1 with
  | nil => intro l2 k; simp [MainTask1.updateLoop]
  | cons node rest ih =>
    intro l2 k
    rw [List.cons_append,
      updateLoop_t1_cons G infected beta gamma rs node (rest ++ l2) k,
      updateLoop_t1_cons G infected beta gamma rs node rest k]
    by_cases hm : node ∈ infected
    · simp only [if_pos hm]
      by_cases hr : gamma < rs k
      · simp only [if_pos hr, ih l2 (k + 1)]
        simp
      · simp only [if_neg hr]
        exact ih l2 (k + 1)
    · simp only [if_neg hm, if_pos hm]
      by_cases hs :
          (MainTask1.susLoop infected beta rs (G.neighbors node) k).1 = true
      · simp only [if_pos hs,
          ih l2 (MainTask1.susLoop infected beta rs (G.neighbors node) k).2]
        simp
      · simp only [if_neg hs]
        exact ih l2 (MainTask1.susLoop infected beta rs (G.neighbors node) k).2

/-- C2, amended to `main_task1.py`'s transition engine: a node `n` that is
susceptible at `t-1` (occurring once in the node list, at position
`pre ++ n :: post`) is in the new infection state returned by
`update_status` if and only if at least one of the Bernoulli transmission
trials taken over its infected neighbors succeeds — the trials use the
consecutive draws starting at the index reached after processing `pre`,
one per infected neighbor, and succeed on a draw below `beta`.  In
particular, if `n` has no infected neighbor the count of trials is zero
and `n` never becomes infected. -/
theorem c2_t1_susceptible_infected_iff (G : Graph) (infected : List Nat)
    (beta gamma : ℚ) (rs : Nat → ℚ) (k : Nat) (pre post : List Nat) (n : Nat)
    (hsplit : G.nodes = pre ++ n :: post)
    (hpre : n ∉ pre) (hpost : n ∉ post) (hsus : n ∉ infected) :
    n ∈ (MainTask1.update_status G infected beta gamma rs k).1.1 ↔
      ∃ j, j < (G.neighbors n).countP (fun m => decide (m ∈ infected)) ∧
        rs ((MainTask1.updateLoop G infected beta gamma rs pre k).2 + j)
          < beta := by
  simp only [MainTask1.update_status]
  rw [hsplit, updateLoop_t1_append]
  have hnotpre :
      n ∉ (MainTask1.updateLoop G infected beta gamma rs pre k).1 :=
    fun hx => hpre (updateLoop_t1_subset G infected beta gamma rs pre k n hx)
  rw [List.mem_append,
    updateLoop_t1_cons G infected beta gamma rs n post
      (MainTask1.updateLoop G infected beta gamma rs pre k).2]
  rw [if_neg hsus, if_pos hsus]
  by_cases hs :
      (MainTask1.susLoop infected beta rs (G.neighbors n)
        (MainTask1.updateLoop G infected beta gamma rs pre k).2).1 = true
  · rw [if_pos hs]
    constructor
    · intro _
      exact (susLoop_true_iff infected beta rs (G.neighbors n) _).mp hs
    · intro _
      right
      exact List.mem_cons_self n _
  · rw [if_neg hs]
    have hnotpost :
        n ∉ (MainTask1.updateLoop G infected beta gamma rs post
          (MainTask1.susLoop infected beta rs (G.neighbors n)
            (MainTask1.updateLoop G infected beta gamma rs pre k).2).2).1 :=
      fun hx =>
        hpost (updateLoop_t1_subset G infected beta gamma rs post _ n hx)
    constructor
    · rintro (h | h)
      · exact absurd h hnotpre
      · exact absurd h hnotpost
    · intro hex
      exact absurd
        ((susLoop_true_iff infected beta rs (G.neighbors n) _).mpr hex) hs

theorem c2_witness :
    1 ∈ (MainTask1.update_status Gpath [0] 1 0 rsHalf 0).1.1 ↔
      ∃ j, j < (Gpath.neighbors 1).countP
          (fun m => decide (m ∈ ([0] : List Nat))) ∧
        rsHalf ((MainTask1.updateLoop Gpath [0] 1 0 rsHalf [0] 0).2 + j) < 1 :=
  c2_t1_susceptible_infected_iff Gpath [0] 1 0 rsHalf 0 [0] [] 1 rfl
    (by decide) (by decide) (by decide)
